import Mathlib

/-!
Verification of the side-chat feature of this repository: the side-chat API
client (`src/lib/apis/side-chats/index.ts`), the SideChat panel
(`src/lib/components/chat/SideChat.svelte`), the StepControls component and
the TopicSplit banner.  Each TypeScript/Svelte function is embedded as an
executable Lean definition; JavaScript numbers that matter only through
exact arithmetic are modelled as rationals, JavaScript truthiness is made
explicit, and each Svelte component is modelled as a transition system on
its local state.
-/

namespace SideChats

/-- A JSON value, as produced by `res.json()` / consumed by `JSON.stringify`.
Numbers are modelled as rationals (JavaScript numbers; the claims only use
exact values). -/
inductive JsonValue where
  | null : JsonValue
  | bool (b : Bool) : JsonValue
  | num (q : Rat) : JsonValue
  | str (s : String) : JsonValue
  | arr (xs : List JsonValue) : JsonValue
  | obj (fields : List (String × JsonValue)) : JsonValue

/-- JavaScript truthiness of a JSON value: `null`, `false`, `0` and `""`
are falsy; every other JSON value (including `[]` and `{}`) is truthy. -/
def JsonValue.truthy : JsonValue → Bool
  | .null => false
  | .bool b => b
  | .num q => q != 0
  | .str s => s != ""
  | .arr _ => true
  | .obj _ => true

/-- The outcome of one `fetch` call together with body parsing, as observed
by the `.then`/`.catch` chain in the side-chat API client:
* `success b`: the response has `res.ok` and its body parses to `b`;
* `httpError b`: the response has a non-success status (`!res.ok`) and its
  body parses to `b` (which the handler then throws);
* `reject e`: the fetch itself or a body parse rejects with the value `e`
  (network failure or malformed body). -/
inductive FetchOutcome where
  | success (body : JsonValue) : FetchOutcome
  | httpError (body : JsonValue) : FetchOutcome
  | reject (err : JsonValue) : FetchOutcome

/-- The response-handling tail shared verbatim by all five side-chat API
functions:
`.then(async (res) => { if (!res.ok) throw await res.json(); return res.json(); })`
`.catch((err) => { error = err; console.error(err); return null; })`
followed by `if (error) { throw error; } return res;`.
The local `error` starts as `null`; `.catch` stores the rejection value in
it and makes the chain resolve with `null`; the final `if (error)` tests
JavaScript truthiness of the stored value.  The result is `.error e` when
the function throws `e` to its caller and `.ok v` when it resolves with
`v`. -/
def runSideChatCall (outcome : FetchOutcome) : Except JsonValue JsonValue :=
  let res : JsonValue :=
    match outcome with
    | .success b => b
    | .httpError _ => .null
    | .reject _ => .null
  let error : JsonValue :=
    match outcome with
    | .success _ => .null
    | .httpError b => b
    | .reject e => e
  if error.truthy then .error error else .ok res

/-- An HTTP request, as assembled by one side-chat API function: URL,
method, header list, and (for POST with a payload) the JSON body passed to
`JSON.stringify`. -/
structure HttpRequest where
  url : String
  method : String
  headers : List (String × String)
  body : Option JsonValue

/-- The header object built by every side-chat API function:
`Accept`/`Content-Type: application/json` plus, via
`...(token && { authorization: Bearer <token> })`, an `authorization`
header exactly when the token string is truthy (non-empty). -/
def baseHeaders (token : String) : List (String × String) :=
  [("Accept", "application/json"), ("Content-Type", "application/json")] ++
    (if token != "" then [("authorization", "Bearer " ++ token)] else [])

/-- The body parameter of `createSideChat`:
`{ chat_id: string; step_number: number; original_step_content: string }`. -/
structure CreateSideChatBody where
  chat_id : String
  step_number : Rat
  original_step_content : String
deriving Repr, DecidableEq

/-- `JSON.stringify` input for the `createSideChat` body: the exact three
fields given, unmodified. -/
def CreateSideChatBody.toJson (b : CreateSideChatBody) : JsonValue :=
  .obj [("chat_id", .str b.chat_id), ("step_number", .num b.step_number),
        ("original_step_content", .str b.original_step_content)]

/-- The body parameter of `addSideChatMessage`:
`{ role: string; content: string }`. -/
structure MessageBody where
  role : String
  content : String
deriving Repr, DecidableEq

/-- `JSON.stringify` input for the `addSideChatMessage` body: the exact two
fields given, unmodified. -/
def MessageBody.toJson (b : MessageBody) : JsonValue :=
  .obj [("role", .str b.role), ("content", .str b.content)]

/-- `createSideChat(token, body)`: POST `${WEBUI_API_BASE_URL}/side-chats/`
with the standard headers and `JSON.stringify(body)`, handled by the shared
response tail.  `baseUrl` stands for the imported `WEBUI_API_BASE_URL`
constant; `outcome` is the observed fetch outcome.  The result pairs the
request sent with the value resolved (`.ok`) or thrown (`.error`). -/
def createSideChat (baseUrl token : String) (body : CreateSideChatBody)
    (outcome : FetchOutcome) : HttpRequest × Except JsonValue JsonValue :=
  ({ url := baseUrl ++ "/side-chats/", method := "POST",
     headers := baseHeaders token, body := some body.toJson },
   runSideChatCall outcome)

/-- `getSideChatsByChatId(token, chatId)`: GET
`${WEBUI_API_BASE_URL}/side-chats/by-chat/${chatId}` with the standard
headers and no body, handled by the shared response tail. -/
def getSideChatsByChatId (baseUrl token chatId : String)
    (outcome : FetchOutcome) : HttpRequest × Except JsonValue JsonValue :=
  ({ url := baseUrl ++ "/side-chats/by-chat/" ++ chatId, method := "GET",
     headers := baseHeaders token, body := none },
   runSideChatCall outcome)

/-- `addSideChatMessage(token, sideChatId, body)`: POST
`${WEBUI_API_BASE_URL}/side-chats/${sideChatId}/messages` with the standard
headers and `JSON.stringify(body)`, handled by the shared response tail. -/
def addSideChatMessage (baseUrl token sideChatId : String)
    (body : MessageBody) (outcome : FetchOutcome) :
    HttpRequest × Except JsonValue JsonValue :=
  ({ url := baseUrl ++ "/side-chats/" ++ sideChatId ++ "/messages",
     method := "POST", headers := baseHeaders token,
     body := some body.toJson },
   runSideChatCall outcome)

/-- `combineSideChat(token, sideChatId)`: POST
`${WEBUI_API_BASE_URL}/side-chats/${sideChatId}/combine` with the standard
headers and no body, handled by the shared response tail. -/
def combineSideChat (baseUrl token sideChatId : String)
    (outcome : FetchOutcome) : HttpRequest × Except JsonValue JsonValue :=
  ({ url := baseUrl ++ "/side-chats/" ++ sideChatId ++ "/combine",
     method := "POST", headers := baseHeaders token, body := none },
   runSideChatCall outcome)

/-- `deleteSideChat(token, sideChatId)`: DELETE
`${WEBUI_API_BASE_URL}/side-chats/${sideChatId}` with the standard headers
and no body, handled by the shared response tail. -/
def deleteSideChat (baseUrl token sideChatId : String)
    (outcome : FetchOutcome) : HttpRequest × Except JsonValue JsonValue :=
  ({ url := baseUrl ++ "/side-chats/" ++ sideChatId, method := "DELETE",
     headers := baseHeaders token, body := none },
   runSideChatCall outcome)

/-- `outcome` is a failure: a non-success HTTP status or a rejected
fetch/parse. -/
def FetchOutcome.isFailure : FetchOutcome → Bool
  | .success _ => false
  | .httpError _ => true
  | .reject _ => true

/-- The error value a failure produces: the parsed body of a non-success
response, or the rejection value of a failed fetch/parse. -/
def FetchOutcome.errValue : FetchOutcome → JsonValue
  | .success b => b
  | .httpError b => b
  | .reject e => e

end SideChats

namespace SideChatPanel

open SideChats

/-- The whitespace characters relevant to `String.prototype.trim` for the
inputs the claims quantify over (ASCII whitespace; the full JS definition
adds further Unicode space code points handled identically). -/
def isJsSpace (c : Char) : Bool :=
  c = ' ' || c = '\t' || c = '\n' || c = '\r' || c = '\x0b' || c = '\x0c'

/-- `inputText.trim()`: remove leading and trailing whitespace. -/
def jsTrim (s : String) : String :=
  ⟨((s.data.dropWhile isJsSpace).reverse.dropWhile isJsSpace).reverse⟩

/-- The mutable local state of `SideChat.svelte`: `inputText`,
`isStreaming`, `combineLoading`, `discardLoading` (the scroll anchor
element carries no state the claims touch).  Note the component declares
`isStreaming` but never assigns it. -/
structure PanelState where
  inputText : String
  isStreaming : Bool
  combineLoading : Bool
  discardLoading : Bool
deriving Repr, DecidableEq

/-- The events the SideChat panel dispatches to its parent. -/
inductive PanelEvent where
  | sendMessage (content : String) : PanelEvent
  | combine : PanelEvent
  | discard : PanelEvent
  | close : PanelEvent
deriving Repr, DecidableEq

/-- The panel's initial local state: empty input, all flags false. -/
def panelInit : PanelState :=
  { inputText := "", isStreaming := false,
    combineLoading := false, discardLoading := false }

/-- `handleSend()`: if `!inputText.trim() || isStreaming` return doing
nothing; otherwise dispatch `sendMessage` with `{content: inputText.trim()}`
and clear `inputText` (the `scrollToBottom` call touches no modelled
state). -/
def handleSend (s : PanelState) : PanelState × List PanelEvent :=
  if jsTrim s.inputText == "" || s.isStreaming then (s, [])
  else ({ s with inputText := "" }, [.sendMessage (jsTrim s.inputText)])

/-- `handleCombine()`: set `combineLoading = true` and dispatch `combine`.
No code path of the component ever assigns `combineLoading = false`. -/
def handleCombine (s : PanelState) : PanelState × List PanelEvent :=
  ({ s with combineLoading := true }, [.combine])

/-- `handleDiscard()`: set `discardLoading = true` and dispatch `discard`.
No code path of the component ever assigns `discardLoading = false`. -/
def handleDiscard (s : PanelState) : PanelState × List PanelEvent :=
  ({ s with discardLoading := true }, [.discard])

/-- `handleKeydown(e)`: Enter without shift submits via `handleSend`;
anything else (including shift+Enter, which lets the newline through) does
not touch the modelled state. -/
def handleKeydown (key : String) (shiftKey : Bool) (s : PanelState) :
    PanelState × List PanelEvent :=
  if key == "Enter" && !shiftKey then handleSend s else (s, [])

/-- `handleClose()`: dispatch `close`; local state unchanged. -/
def handleClose (s : PanelState) : PanelState × List PanelEvent :=
  (s, [.close])

/-- The Combine button's `disabled={combineLoading || discardLoading}`. -/
def combineDisabled (s : PanelState) : Bool :=
  s.combineLoading || s.discardLoading

/-- The Discard button's `disabled={combineLoading || discardLoading}`. -/
def discardDisabled (s : PanelState) : Bool :=
  s.combineLoading || s.discardLoading

/-- The send button's `disabled={!inputText.trim() || isStreaming}`. -/
def sendDisabled (s : PanelState) : Bool :=
  jsTrim s.inputText == "" || s.isStreaming

/-- Every state-touching interaction the component exposes: the three
action handlers, a keydown, closing, and the user editing the textarea
(`bind:value={inputText}`). -/
inductive PanelAction where
  | send : PanelAction
  | combine : PanelAction
  | discard : PanelAction
  | keydown (key : String) (shiftKey : Bool) : PanelAction
  | close : PanelAction
  | setInput (text : String) : PanelAction
deriving Repr, DecidableEq

/-- One interaction step of the SideChat panel. -/
def panelStep : PanelAction → PanelState → PanelState × List PanelEvent
  | .send, s => handleSend s
  | .combine, s => handleCombine s
  | .discard, s => handleDiscard s
  | .keydown k sh, s => handleKeydown k sh s
  | .close, s => handleClose s
  | .setInput t, s => ({ s with inputText := t }, [])

end SideChatPanel

namespace StepControls

open SideChats

/-- The mutable local state of `StepControls.svelte` that the claims touch:
the `loading` flag and the `chatId` prop it guards on. -/
structure ControlsState where
  loading : Bool
  chatId : String
deriving Repr, DecidableEq

/-- The events StepControls dispatches. -/
inductive StepEvent where
  | nextStep (res : JsonValue) : StepEvent
  | showAllSteps (res : JsonValue) : StepEvent

/-- The outcome of one awaited backend call: it resolves with a value or
throws one. -/
inductive RequestOutcome where
  | resolves (v : JsonValue) : RequestOutcome
  | throws (e : JsonValue) : RequestOutcome

/-- `handleNext()`: `if (loading || !chatId) return;` then `loading = true`;
`try` await `nextStep` and dispatch the result, `catch` log only,
`finally { loading = false }`.  `outcome` is how the awaited call ends;
the returned state is the state after the `finally` block ran. -/
def handleNext (s : ControlsState) (outcome : RequestOutcome) :
    ControlsState × List StepEvent :=
  if s.loading || s.chatId == "" then (s, [])
  else
    let inFlight : ControlsState := { s with loading := true }
    let afterTry : ControlsState × List StepEvent :=
      match outcome with
      | .resolves v => (inFlight, [.nextStep v])
      | .throws _ => (inFlight, [])
    ({ afterTry.1 with loading := false }, afterTry.2)

/-- The in-flight state `handleNext` establishes before awaiting:
`loading = true` (this is what disables the Next button, whose markup is
`disabled={loading}`). -/
def handleNextInFlight (s : ControlsState) : ControlsState :=
  if s.loading || s.chatId == "" then s else { s with loading := true }

/-- `handleShowAll()`: guard on `chatId`, await `getAllSteps`, dispatch on
success, log on failure; no busy flag involved. -/
def handleShowAll (s : ControlsState) (outcome : RequestOutcome) :
    ControlsState × List StepEvent :=
  if s.chatId == "" then (s, [])
  else
    match outcome with
    | .resolves v => (s, [.showAllSteps v])
    | .throws _ => (s, [])

end StepControls

namespace TopicSplit

/-- The two events the TopicSplit banner can dispatch. -/
inductive BannerEvent where
  | confirmSplit : BannerEvent
  | cancelSplit : BannerEvent
deriving Repr, DecidableEq

/-- The state of one mounted TopicSplit banner instance: the `progress`
local (a JavaScript number, modelled exactly as a rational), whether the
repeating interval is still installed (`intervalId` live and not cleared),
the `visible` flag, whether `onDestroy` has run, and the list of events
dispatched so far (in order). -/
structure BannerState where
  progress : Rat
  intervalActive : Bool
  visible : Bool
  destroyed : Bool
  events : List BannerEvent
deriving Repr, DecidableEq

/-- State right after `onMount`: `progress = 100`, interval installed,
banner visible, nothing dispatched. -/
def bannerInit : BannerState :=
  { progress := 100, intervalActive := true, visible := true,
    destroyed := false, events := [] }

/-- `const decrement = (tickMs / timeoutMs) * 100` with `tickMs = 50`. -/
def tickDecrement (timeoutMs : Rat) : Rat :=
  (50 / timeoutMs) * 100

/-- `confirmSplit()`: hide the banner and dispatch `confirmSplit`. -/
def confirmSplit (s : BannerState) : BannerState :=
  { s with visible := false, events := s.events ++ [.confirmSplit] }

/-- One firing of the 50 ms interval callback:
`progress -= decrement; if (progress <= 0) { progress = 0;
clearInterval(intervalId); confirmSplit(); }`.
The guard models the event loop: a cleared interval never fires again, and
after `onDestroy` no callback of this instance runs. -/
def bannerTick (timeoutMs : Rat) (s : BannerState) : BannerState :=
  if s.intervalActive && !s.destroyed then
    let p := s.progress - tickDecrement timeoutMs
    if p ≤ 0 then confirmSplit { s with progress := 0, intervalActive := false }
    else { s with progress := p }
  else s

/-- `cancelSplit()`: `clearInterval(intervalId); visible = false;
dispatch('cancelSplit')`.  The guard models the DOM: the cancel button is
rendered only under `{#if visible}` and only while the component is
mounted, so the handler can only be invoked then. -/
def cancelSplit (s : BannerState) : BannerState :=
  if s.visible && !s.destroyed then
    { s with intervalActive := false, visible := false,
             events := s.events ++ [.cancelSplit] }
  else s

/-- `onDestroy(() => { if (intervalId) clearInterval(intervalId); })`. -/
def bannerOnDestroy (s : BannerState) : BannerState :=
  { s with intervalActive := false, destroyed := true }

/-- The possible occurrences in a banner instance's lifetime after mount:
an interval firing, a user cancel click, component teardown. -/
inductive BannerAction where
  | tick : BannerAction
  | cancel : BannerAction
  | destroy : BannerAction
deriving Repr, DecidableEq

/-- One step of the banner transition system. -/
def bannerStep (timeoutMs : Rat) : BannerAction → BannerState → BannerState
  | .tick, s => bannerTick timeoutMs s
  | .cancel, s => cancelSplit s
  | .destroy, s => bannerOnDestroy s

/-- Run a sequence of occurrences from a given state. -/
def bannerRunFrom (timeoutMs : Rat) (s : BannerState)
    (as : List BannerAction) : BannerState :=
  as.foldl (fun t a => bannerStep timeoutMs a t) s

/-- Run a sequence of occurrences from the mounted initial state. -/
def bannerRun (timeoutMs : Rat) (as : List BannerAction) : BannerState :=
  bannerRunFrom timeoutMs bannerInit as

/-- `n` consecutive interval firings. -/
def ticks (n : Nat) : List BannerAction :=
  List.replicate n .tick

/-- Verification invariant of the banner model: either nothing has been
dispatched yet, or exactly one of the two events has been dispatched and
at that point the interval was cleared and the banner hidden. -/
def bannerInv (s : BannerState) : Prop :=
  s.events = [] ∨
    ((s.events = [BannerEvent.confirmSplit] ∨ s.events = [BannerEvent.cancelSplit]) ∧
      s.intervalActive = false ∧ s.visible = false)

end TopicSplit

namespace TopicSplit

/-! Helper lemmas about the banner transition system. -/

theorem bannerStep_halted (timeoutMs : Rat) (a : BannerAction) (s : BannerState)
    (hi : s.intervalActive = false) (hv : s.visible = false) :
    (bannerStep timeoutMs a s).events = s.events ∧
      (bannerStep timeoutMs a s).intervalActive = false ∧
      (bannerStep timeoutMs a s).visible = false := by
  cases a with
  | tick => simp [bannerStep, bannerTick, hi, hv]
  | cancel => simp [bannerStep, cancelSplit, hi, hv]
  | destroy => simp [bannerStep, bannerOnDestroy, hi, hv]

theorem bannerRunFrom_halted (timeoutMs : Rat) (as : List BannerAction)
    (s : BannerState) (hi : s.intervalActive = false) (hv : s.visible = false) :
    (bannerRunFrom timeoutMs s as).events = s.events := by
  induction as generalizing s with
  | nil => rfl
  | cons a as ih =>
    obtain ⟨he, hi', hv'⟩ := bannerStep_halted timeoutMs a s hi hv
    calc (bannerRunFrom timeoutMs s (a :: as)).events
        = (bannerRunFrom timeoutMs (bannerStep timeoutMs a s) as).events := rfl
      _ = (bannerStep timeoutMs a s).events := ih _ hi' hv'
      _ = s.events := he

theorem bannerStep_destroyed (timeoutMs : Rat) (a : BannerAction) (s : BannerState)
    (hd : s.destroyed = true) (hi : s.intervalActive = false) :
    (bannerStep timeoutMs a s).events = s.events ∧
      (bannerStep timeoutMs a s).destroyed = true ∧
      (bannerStep timeoutMs a s).intervalActive = false := by
  cases a with
  | tick => simp [bannerStep, bannerTick, hd, hi]
  | cancel => simp [bannerStep, cancelSplit, hd, hi]
  | destroy => simp [bannerStep, bannerOnDestroy, hd, hi]

theorem bannerRunFrom_destroyed (timeoutMs : Rat) (as : List BannerAction)
    (s : BannerState) (hd : s.destroyed = true) (hi : s.intervalActive = false) :
    (bannerRunFrom timeoutMs s as).events = s.events := by
  induction as generalizing s with
  | nil => rfl
  | cons a as ih =>
    obtain ⟨he, hd', hi'⟩ := bannerStep_destroyed timeoutMs a s hd hi
    calc (bannerRunFrom timeoutMs s (a :: as)).events
        = (bannerRunFrom timeoutMs (bannerStep timeoutMs a s) as).events := rfl
      _ = (bannerStep timeoutMs a s).events := ih _ hd' hi'
      _ = s.events := he

theorem bannerInv_step (timeoutMs : Rat) (a : BannerAction) (s : BannerState)
    (h : bannerInv s) : bannerInv (bannerStep timeoutMs a s) := by
  rcases h with he | ⟨hev, hi, hv⟩
  · cases a with
    | tick =>
      simp only [bannerStep, bannerTick]
      split
      · split
        · right
          simp [confirmSplit, he]
        · left
          exact he
      · left
        exact he
    | cancel =>
      simp only [bannerStep, cancelSplit]
      split
      · right
        simp [he]
      · left
        exact he
    | destroy =>
      left
      simpa [bannerStep, bannerOnDestroy] using he
  · obtain ⟨he', hi', hv'⟩ := bannerStep_halted timeoutMs a s hi hv
    right
    rw [he', hi', hv']
    exact ⟨hev, rfl, rfl⟩

theorem bannerInv_runFrom (timeoutMs : Rat) (as : List BannerAction)
    (s : BannerState) (h : bannerInv s) :
    bannerInv (bannerRunFrom timeoutMs s as) := by
  induction as generalizing s with
  | nil => exact h
  | cons a as ih => exact ih _ (bannerInv_step timeoutMs a s h)

theorem bannerRun200_four :
    bannerRun 200 (ticks 4) =
      { progress := 0, intervalActive := false, visible := false,
        destroyed := false, events := [.confirmSplit] } := by
  norm_num [bannerRun, bannerRunFrom, bannerStep, bannerTick, tickDecrement,
    confirmSplit, bannerInit, ticks, List.replicate]

/-- C4: cancelling the TopicSplit banner before the countdown reaches zero
dispatches `cancelSplit`, hides the banner, clears the interval, and no
`confirmSplit` is ever dispatched by any later steps, however long the
instance stays mounted; and after `onDestroy` no step ever dispatches
anything (the timer callback never fires after teardown). -/
theorem topicSplit_cancel_then_no_confirm (timeoutMs : Rat) (s : BannerState)
    (as bs : List BannerAction)
    (hv : s.visible = true) (hd : s.destroyed = false)
    (hc : BannerEvent.confirmSplit ∉ s.events) :
    (cancelSplit s).events = s.events ++ [BannerEvent.cancelSplit] ∧
    (cancelSplit s).visible = false ∧
    (cancelSplit s).intervalActive = false ∧
    BannerEvent.confirmSplit ∉ (bannerRunFrom timeoutMs (cancelSplit s) as).events ∧
    (bannerRunFrom timeoutMs (bannerOnDestroy s) bs).events = s.events := by
  have hcancel : cancelSplit s =
      { s with intervalActive := false, visible := false,
               events := s.events ++ [BannerEvent.cancelSplit] } := by
    simp [cancelSplit, hv, hd]
  refine ⟨by rw [hcancel], by rw [hcancel], by rw [hcancel], ?_, ?_⟩
  · rw [bannerRunFrom_halted timeoutMs as (cancelSplit s)
      (by rw [hcancel]) (by rw [hcancel]), hcancel]
    simp [hc]
  · exact bannerRunFrom_destroyed timeoutMs bs (bannerOnDestroy s) rfl rfl

/-- Witness for `topicSplit_cancel_then_no_confirm` at the mounted initial
state with `timeoutMs = 200`. -/
theorem topicSplit_cancel_then_no_confirm_check :
    (cancelSplit bannerInit).events = bannerInit.events ++ [BannerEvent.cancelSplit] ∧
    (cancelSplit bannerInit).visible = false ∧
    (cancelSplit bannerInit).intervalActive = false ∧
    BannerEvent.confirmSplit ∉
      (bannerRunFrom 200 (cancelSplit bannerInit) [.tick, .tick]).events ∧
    (bannerRunFrom 200 (bannerOnDestroy bannerInit) [.tick]).events =
      bannerInit.events :=
  topicSplit_cancel_then_no_confirm 200 bannerInit [.tick, .tick] [.tick]
    rfl rfl (by simp [bannerInit])

/-- C5: while the countdown runs, each 50 ms tick decrements `progress` by
`(50/timeoutMs)*100`; on the tick where `progress` reaches 0 the interval
is cleared and `confirmSplit` is dispatched; concretely for
`timeoutMs = 200` no confirm has fired after 3 ticks (150 ms) and exactly
one `confirmSplit` has fired after 4 or more ticks — i.e. at 200 ms,
within the claimed ~250 ms — and never a second one. -/
theorem topicSplit_countdown_confirm (timeoutMs : Rat) (s : BannerState) (k : Nat)
    (hi : s.intervalActive = true) (hd : s.destroyed = false) :
    (0 < s.progress - tickDecrement timeoutMs →
      bannerTick timeoutMs s =
        { s with progress := s.progress - tickDecrement timeoutMs }) ∧
    (s.progress - tickDecrement timeoutMs ≤ 0 →
      bannerTick timeoutMs s =
        { s with progress := 0, intervalActive := false, visible := false,
                 events := s.events ++ [BannerEvent.confirmSplit] }) ∧
    (bannerRun 200 (ticks 3)).events = [] ∧
    (bannerRun 200 (ticks 3)).progress = 25 ∧
    (bannerRun 200 (ticks (4 + k))).events = [BannerEvent.confirmSplit] := by
  refine ⟨?_, ?_, ?_, ?_, ?_⟩
  · intro hpos
    rw [bannerTick, if_pos (by simp [hi, hd]), if_neg (not_le.mpr hpos)]
  · intro hle
    rw [bannerTick, if_pos (by simp [hi, hd]), if_pos hle]
    simp [confirmSplit]
  · norm_num [bannerRun, bannerRunFrom, bannerStep, bannerTick, tickDecrement,
      confirmSplit, bannerInit, ticks, List.replicate]
  · norm_num [bannerRun, bannerRunFrom, bannerStep, bannerTick, tickDecrement,
      confirmSplit, bannerInit, ticks, List.replicate]
  · have hsplit : ticks (4 + k) = ticks 4 ++ ticks k := by
      simp [ticks, List.replicate_add]
    rw [bannerRun, hsplit, bannerRunFrom, List.foldl_append]
    have h4 : bannerRunFrom 200 bannerInit (ticks 4) =
        { progress := 0, intervalActive := false, visible := false,
          destroyed := false, events := [.confirmSplit] } := bannerRun200_four
    rw [show List.foldl (fun t a => bannerStep 200 a t) bannerInit (ticks 4) =
        bannerRunFrom 200 bannerInit (ticks 4) from rfl, h4]
    exact bannerRunFrom_halted 200 (ticks k) _ rfl rfl

/-- Witness for `topicSplit_countdown_confirm` at the mounted initial state
with the default `timeoutMs = 5000`. -/
theorem topicSplit_countdown_confirm_check :
    (0 < bannerInit.progress - tickDecrement 5000 →
      bannerTick 5000 bannerInit =
        { bannerInit with
            progress := bannerInit.progress - tickDecrement 5000 }) ∧
    (bannerInit.progress - tickDecrement 5000 ≤ 0 →
      bannerTick 5000 bannerInit =
        { bannerInit with
            progress := 0, intervalActive := false, visible := false,
            events := bannerInit.events ++ [BannerEvent.confirmSplit] }) ∧
    (bannerRun 200 (ticks 3)).events = [] ∧
    (bannerRun 200 (ticks 3)).progress = 25 ∧
    (bannerRun 200 (ticks (4 + 2))).events = [BannerEvent.confirmSplit] :=
  topicSplit_countdown_confirm 5000 bannerInit 2 rfl rfl

/-- C10: over the whole lifetime of one banner instance — any sequence of
ticks, cancel clicks and teardown from the mounted state — at most one of
`confirmSplit`/`cancelSplit` is ever dispatched. -/
theorem topicSplit_at_most_one_event (timeoutMs : Rat) (as : List BannerAction) :
    (bannerRun timeoutMs as).events = [] ∨
    (bannerRun timeoutMs as).events = [BannerEvent.confirmSplit] ∨
    (bannerRun timeoutMs as).events = [BannerEvent.cancelSplit] := by
  have h := bannerInv_runFrom timeoutMs as bannerInit (Or.inl rfl)
  rcases h with he | ⟨hev, -, -⟩
  · exact Or.inl he
  · rcases hev with hev | hev
    · exact Or.inr (Or.inl hev)
    · exact Or.inr (Or.inr hev)

end TopicSplit

namespace SideChatPanel

/-! Helper lemmas about the SideChat panel. -/

theorem jsTrim_of_all_space (ws : String)
    (h : ∀ c ∈ ws.data, isJsSpace c = true) : jsTrim ws = "" := by
  have h1 : ws.data.dropWhile isJsSpace = [] :=
    List.dropWhile_eq_nil_iff.mpr (by simpa using h)
  simp [jsTrim, h1]

theorem handleSend_flags (s : PanelState) :
    (handleSend s).1.combineLoading = s.combineLoading ∧
      (handleSend s).1.discardLoading = s.discardLoading := by
  unfold handleSend
  split <;> simp

theorem handleSend_isStreaming (s : PanelState) :
    (handleSend s).1.isStreaming = s.isStreaming := by
  unfold handleSend
  split <;> simp

theorem panelStep_isStreaming (a : PanelAction) (p : PanelState) :
    (panelStep a p).1.isStreaming = p.isStreaming := by
  cases a with
  | send => exact handleSend_isStreaming p
  | combine => simp [panelStep, handleCombine]
  | discard => simp [panelStep, handleDiscard]
  | keydown k sh =>
    rw [panelStep, handleKeydown]
    split
    · exact handleSend_isStreaming p
    · rfl
  | close => rfl
  | setInput t => rfl

theorem panelStep_keeps_combineLoading (a : PanelAction) (p : PanelState)
    (h : p.combineLoading = true) : (panelStep a p).1.combineLoading = true := by
  cases a with
  | send => rw [panelStep, (handleSend_flags p).1, h]
  | combine => simp [panelStep, handleCombine]
  | discard => simp [panelStep, handleDiscard, h]
  | keydown k sh =>
    rw [panelStep, handleKeydown]
    split
    · rw [(handleSend_flags p).1, h]
    · exact h
  | close => simp [panelStep, handleClose, h]
  | setInput t => simp [panelStep, h]

theorem panelStep_keeps_discardLoading (a : PanelAction) (p : PanelState)
    (h : p.discardLoading = true) : (panelStep a p).1.discardLoading = true := by
  cases a with
  | send => rw [panelStep, (handleSend_flags p).2, h]
  | combine => simp [panelStep, handleCombine, h]
  | discard => simp [panelStep, handleDiscard]
  | keydown k sh =>
    rw [panelStep, handleKeydown]
    split
    · rw [(handleSend_flags p).2, h]
    · exact h
  | close => simp [panelStep, handleClose, h]
  | setInput t => simp [panelStep, h]

/-- C6: invoking the panel's send on an input that is empty or whitespace
only dispatches nothing and leaves the whole panel state unchanged, for
every panel state; invoking it with input `"hello"` in a non-streaming
state dispatches `sendMessage` with payload `{content: "hello"}` and
clears the input field.  The non-streaming hypothesis holds in every
reachable state: the last conjunct shows no panel action ever changes
`isStreaming` (the component initialises it to `false` and never assigns
it), so from `panelInit` it is always `false`. -/
theorem sideChat_send_behavior (s : PanelState) (ws : String)
    (a : PanelAction) (p : PanelState)
    (hws : ∀ c ∈ ws.data, isJsSpace c = true)
    (hstream : s.isStreaming = false) :
    handleSend { s with inputText := ws } = ({ s with inputText := ws }, []) ∧
    handleSend { s with inputText := "hello" } =
      ({ s with inputText := "" }, [PanelEvent.sendMessage "hello"]) ∧
    panelInit.isStreaming = false ∧
    (panelStep a p).1.isStreaming = p.isStreaming := by
  have hhello : jsTrim "hello" = "hello" := by decide
  refine ⟨?_, ?_, rfl, panelStep_isStreaming a p⟩
  · simp [handleSend, jsTrim_of_all_space ws hws]
  · simp [handleSend, hhello, hstream]

/-- Witness for `sideChat_send_behavior` on the initial panel state and the
whitespace-only input `" \t "`. -/
theorem sideChat_send_behavior_check :
    handleSend { panelInit with inputText := " \t " } =
      ({ panelInit with inputText := " \t " }, []) ∧
    handleSend { panelInit with inputText := "hello" } =
      ({ panelInit with inputText := "" }, [PanelEvent.sendMessage "hello"]) ∧
    panelInit.isStreaming = false ∧
    (panelStep .close panelInit).1.isStreaming = panelInit.isStreaming :=
  sideChat_send_behavior panelInit " \t " .close panelInit (by decide) rfl

/-- C9: whenever `combineLoading` or `discardLoading` is set, both the
Combine and the Discard buttons are disabled; and the send button's
disabled condition does not depend on either of those two flags (it reads
only the input text and the streaming flag). -/
theorem sideChat_busy_flags_disable (s : PanelState) (b1 b2 : Bool)
    (h : s.combineLoading = true ∨ s.discardLoading = true) :
    combineDisabled s = true ∧ discardDisabled s = true ∧
    sendDisabled { s with combineLoading := b1, discardLoading := b2 } =
      sendDisabled s := by
  rcases h with h | h <;>
    simp [combineDisabled, discardDisabled, sendDisabled, h]

/-- Witness for `sideChat_busy_flags_disable` on a state with
`combineLoading` set. -/
theorem sideChat_busy_flags_disable_check :
    combineDisabled { panelInit with combineLoading := true } = true ∧
    discardDisabled { panelInit with combineLoading := true } = true ∧
    sendDisabled { { panelInit with combineLoading := true } with
        combineLoading := false, discardLoading := true } =
      sendDisabled { panelInit with combineLoading := true } :=
  sideChat_busy_flags_disable { panelInit with combineLoading := true }
    false true (Or.inl rfl)

end SideChatPanel

namespace StepControls

/-- C8: when `handleNext` actually starts a request (not already loading,
non-empty `chatId`), it first sets the `loading` flag that disables the
Next button, and for every outcome of the awaited `nextStep` call —
resolve or throw — the state after the `finally` block has
`loading = false`, so the button is re-enabled even after a failure. -/
theorem stepControls_loading_always_reset (s : ControlsState)
    (outcome : RequestOutcome)
    (hl : s.loading = false) (hc : s.chatId ≠ "") :
    (handleNextInFlight s).loading = true ∧
    (handleNext s outcome).1.loading = false := by
  have hguard : (s.loading || s.chatId == "") = false := by
    simp [hl, hc]
  constructor
  · rw [handleNextInFlight, if_neg (by simp [hguard])]
  · cases outcome <;>
      · rw [handleNext, if_neg (by simp [hguard])]

/-- Witness for `stepControls_loading_always_reset` on a failing call. -/
theorem stepControls_loading_always_reset_check :
    (handleNextInFlight { loading := false, chatId := "chat-1" }).loading = true ∧
    (handleNext { loading := false, chatId := "chat-1" }
        (.throws (SideChats.JsonValue.str "boom"))).1.loading = false :=
  stepControls_loading_always_reset { loading := false, chatId := "chat-1" }
    (.throws (SideChats.JsonValue.str "boom")) rfl (by decide)

end StepControls

namespace BusyFlags

open SideChatPanel StepControls

/-- C3 counterexample: in the SideChat panel, after the combine interaction
completes (the handler has run and the `combine` intent has been
dispatched to the parent), `combineLoading` is still `true` and the
triggering control is still disabled — and it remains so after further
concrete interactions (typing, pressing send): the component contains no
code path that resets it. -/
theorem sideChat_combine_flag_never_cleared_cex :
    (handleCombine panelInit).1.combineLoading = true ∧
    combineDisabled (handleCombine panelInit).1 = true ∧
    (panelStep (.setInput "x") (handleCombine panelInit).1).1.combineLoading = true ∧
    (panelStep .send
        (panelStep (.setInput "x") (handleCombine panelInit).1).1).1.combineLoading
      = true ∧
    combineDisabled
        (panelStep .send
          (panelStep (.setInput "x") (handleCombine panelInit).1).1).1 = true := by
  refine ⟨rfl, rfl, rfl, ?_, ?_⟩ <;> decide

/-- C3 as amended: StepControls' `loading` flag is always cleared by the
`finally` block after the `nextStep` request completes, success or
failure; the SideChat panel's `combineLoading` and `discardLoading`, by
contrast, are set by `handleCombine`/`handleDiscard` and never reset by
any code path of the panel (every panel action preserves them once set). -/
theorem busy_flag_reset_amended (s : ControlsState) (outcome : RequestOutcome)
    (p : PanelState) (a : PanelAction)
    (hl : s.loading = false) (hc : s.chatId ≠ "") :
    (handleNext s outcome).1.loading = false ∧
    (handleCombine p).1.combineLoading = true ∧
    (handleDiscard p).1.discardLoading = true ∧
    (p.combineLoading = true → (panelStep a p).1.combineLoading = true) ∧
    (p.discardLoading = true → (panelStep a p).1.discardLoading = true) := by
  have hguard : (s.loading || s.chatId == "") = false := by
    simp [hl, hc]
  refine ⟨?_, rfl, rfl, ?_, ?_⟩
  · cases outcome <;>
      · rw [handleNext, if_neg (by simp [hguard])]
  · exact panelStep_keeps_combineLoading a p
  · exact panelStep_keeps_discardLoading a p

/-- Witness for `busy_flag_reset_amended` on a failing `nextStep` call and
a panel state with `combineLoading` already set. -/
theorem busy_flag_reset_amended_check :
    (handleNext { loading := false, chatId := "c7" }
        (.throws SideChats.JsonValue.null)).1.loading = false ∧
    (handleCombine { panelInit with combineLoading := true }).1.combineLoading
      = true ∧
    (handleDiscard { panelInit with combineLoading := true }).1.discardLoading
      = true ∧
    ({ panelInit with combineLoading := true }.combineLoading = true →
      (panelStep .close
          { panelInit with combineLoading := true }).1.combineLoading = true) ∧
    ({ panelInit with combineLoading := true }.discardLoading = true →
      (panelStep .close
          { panelInit with combineLoading := true }).1.discardLoading = true) :=
  busy_flag_reset_amended { loading := false, chatId := "c7" }
    (.throws SideChats.JsonValue.null) { panelInit with combineLoading := true }
    .close rfl (by decide)

end BusyFlags

namespace SideChats

/-! Helper lemma about the shared response tail. -/

theorem runSideChatCall_truthy_failure (outcome : FetchOutcome)
    (hf : outcome.isFailure = true) (ht : outcome.errValue.truthy = true) :
    runSideChatCall outcome = Except.error outcome.errValue := by
  cases outcome with
  | success b => simp [FetchOutcome.isFailure] at hf
  | httpError b =>
    rw [runSideChatCall]
    rw [FetchOutcome.errValue] at ht ⊢
    simp [ht]
  | reject e =>
    rw [runSideChatCall]
    rw [FetchOutcome.errValue] at ht ⊢
    simp [ht]

/-- C1 counterexample: a failure whose error value is falsy is NOT
re-thrown.  A non-2xx response whose body parses to the JSON value `false`
makes `addSideChatMessage` resolve with `null` — a successful-looking
result — instead of throwing. -/
theorem sideChat_api_rethrow_cex :
    (addSideChatMessage "http://api" "tok" "sc-1"
        { role := "user", content := "hi" }
        (.httpError (.bool false))).2 = Except.ok JsonValue.null := rfl

/-- C1 as amended: for every side-chat API function and every failure
(non-success HTTP status, network failure, or body-parse failure) whose
error value is truthy, the function throws that error value to the caller
and never resolves; a failure whose error value is falsy (a non-2xx body
parsing to `null`, `false`, `0` or `""`) instead makes the function
resolve with `null`. -/
theorem sideChat_api_rethrow_truthy (baseUrl token chatId sideChatId : String)
    (cb : CreateSideChatBody) (mb : MessageBody) (outcome : FetchOutcome)
    (hf : outcome.isFailure = true) (ht : outcome.errValue.truthy = true) :
    (createSideChat baseUrl token cb outcome).2 = Except.error outcome.errValue ∧
    (getSideChatsByChatId baseUrl token chatId outcome).2 =
      Except.error outcome.errValue ∧
    (addSideChatMessage baseUrl token sideChatId mb outcome).2 =
      Except.error outcome.errValue ∧
    (combineSideChat baseUrl token sideChatId outcome).2 =
      Except.error outcome.errValue ∧
    (deleteSideChat baseUrl token sideChatId outcome).2 =
      Except.error outcome.errValue := by
  have key := runSideChatCall_truthy_failure outcome hf ht
  exact ⟨key, key, key, key, key⟩

/-- Witness for `sideChat_api_rethrow_truthy` on a network failure carrying
a truthy error value. -/
theorem sideChat_api_rethrow_truthy_check :
    (createSideChat "http://api" "tok"
        { chat_id := "c1", step_number := 2, original_step_content := "s" }
        (.reject (.str "TypeError: network"))).2 =
      Except.error (FetchOutcome.errValue (.reject (.str "TypeError: network"))) ∧
    (getSideChatsByChatId "http://api" "tok" "c1"
        (.reject (.str "TypeError: network"))).2 =
      Except.error (FetchOutcome.errValue (.reject (.str "TypeError: network"))) ∧
    (addSideChatMessage "http://api" "tok" "sc-1"
        { role := "user", content := "hi" }
        (.reject (.str "TypeError: network"))).2 =
      Except.error (FetchOutcome.errValue (.reject (.str "TypeError: network"))) ∧
    (combineSideChat "http://api" "tok" "sc-1"
        (.reject (.str "TypeError: network"))).2 =
      Except.error (FetchOutcome.errValue (.reject (.str "TypeError: network"))) ∧
    (deleteSideChat "http://api" "tok" "sc-1"
        (.reject (.str "TypeError: network"))).2 =
      Except.error (FetchOutcome.errValue (.reject (.str "TypeError: network"))) :=
  sideChat_api_rethrow_truthy "http://api" "tok" "c1" "sc-1"
    { chat_id := "c1", step_number := 2, original_step_content := "s" }
    { role := "user", content := "hi" }
    (.reject (.str "TypeError: network")) rfl (by decide)

/-- C2 counterexample: a non-2xx response whose body parses to JSON `null`
does NOT make `createSideChat` throw the parsed body — the function
resolves with `null` instead. -/
theorem sideChat_api_http_error_cex :
    (createSideChat "http://api" "tok"
        { chat_id := "c1", step_number := 3, original_step_content := "step" }
        (.httpError .null)).2 = Except.ok JsonValue.null := rfl

/-- C2 as amended: for every side-chat API function and every response with
a non-success status (`res.ok` false) whose parsed JSON body is truthy,
the function throws the parsed body as the error value and does not
resolve; when the parsed body is falsy (`null`, `false`, `0`, `""`) the
function instead resolves with `null`. -/
theorem sideChat_api_http_error_truthy (baseUrl token chatId sideChatId : String)
    (cb : CreateSideChatBody) (mb : MessageBody) (b : JsonValue)
    (ht : b.truthy = true) :
    (createSideChat baseUrl token cb (.httpError b)).2 = Except.error b ∧
    (getSideChatsByChatId baseUrl token chatId (.httpError b)).2 =
      Except.error b ∧
    (addSideChatMessage baseUrl token sideChatId mb (.httpError b)).2 =
      Except.error b ∧
    (combineSideChat baseUrl token sideChatId (.httpError b)).2 =
      Except.error b ∧
    (deleteSideChat baseUrl token sideChatId (.httpError b)).2 =
      Except.error b := by
  have key := runSideChatCall_truthy_failure (.httpError b) rfl ht
  exact ⟨key, key, key, key, key⟩

/-- Witness for `sideChat_api_http_error_truthy` on a typical error body
`{"detail": "Not found"}`. -/
theorem sideChat_api_http_error_truthy_check :
    (createSideChat "http://api" "tok"
        { chat_id := "c1", step_number := 1, original_step_content := "s" }
        (.httpError (.obj [("detail", .str "Not found")]))).2 =
      Except.error (.obj [("detail", .str "Not found")]) ∧
    (getSideChatsByChatId "http://api" "tok" "c1"
        (.httpError (.obj [("detail", .str "Not found")]))).2 =
      Except.error (.obj [("detail", .str "Not found")]) ∧
    (addSideChatMessage "http://api" "tok" "sc-1"
        { role := "assistant", content := "ok" }
        (.httpError (.obj [("detail", .str "Not found")]))).2 =
      Except.error (.obj [("detail", .str "Not found")]) ∧
    (combineSideChat "http://api" "tok" "sc-1"
        (.httpError (.obj [("detail", .str "Not found")]))).2 =
      Except.error (.obj [("detail", .str "Not found")]) ∧
    (deleteSideChat "http://api" "tok" "sc-1"
        (.httpError (.obj [("detail", .str "Not found")]))).2 =
      Except.error (.obj [("detail", .str "Not found")]) :=
  sideChat_api_http_error_truthy "http://api" "tok" "c1" "sc-1"
    { chat_id := "c1", step_number := 1, original_step_content := "s" }
    { role := "assistant", content := "ok" }
    (.obj [("detail", .str "Not found")]) rfl

/-- C7: every side-chat API function sends the `authorization: Bearer
<token>` header exactly when a non-empty token is supplied and no
`authorization` header at all when the token is empty; and
`createSideChat` / `addSideChatMessage` send as request body exactly the
fields they were given, unmodified. -/
theorem sideChat_api_headers_and_bodies (baseUrl token chatId sideChatId : String)
    (cb : CreateSideChatBody) (mb : MessageBody) (outcome : FetchOutcome)
    (htok : token ≠ "") :
    ("authorization", "Bearer " ++ token) ∈
      (createSideChat baseUrl token cb outcome).1.headers ∧
    ("authorization", "Bearer " ++ token) ∈
      (getSideChatsByChatId baseUrl token chatId outcome).1.headers ∧
    ("authorization", "Bearer " ++ token) ∈
      (addSideChatMessage baseUrl token sideChatId mb outcome).1.headers ∧
    ("authorization", "Bearer " ++ token) ∈
      (combineSideChat baseUrl token sideChatId outcome).1.headers ∧
    ("authorization", "Bearer " ++ token) ∈
      (deleteSideChat baseUrl token sideChatId outcome).1.headers ∧
    (createSideChat baseUrl "" cb outcome).1.headers.all
      (fun hdr => hdr.1 != "authorization") = true ∧
    (getSideChatsByChatId baseUrl "" chatId outcome).1.headers.all
      (fun hdr => hdr.1 != "authorization") = true ∧
    (addSideChatMessage baseUrl "" sideChatId mb outcome).1.headers.all
      (fun hdr => hdr.1 != "authorization") = true ∧
    (combineSideChat baseUrl "" sideChatId outcome).1.headers.all
      (fun hdr => hdr.1 != "authorization") = true ∧
    (deleteSideChat baseUrl "" sideChatId outcome).1.headers.all
      (fun hdr => hdr.1 != "authorization") = true ∧
    (createSideChat baseUrl token cb outcome).1.body =
      some (JsonValue.obj
        [("chat_id", JsonValue.str cb.chat_id),
         ("step_number", JsonValue.num cb.step_number),
         ("original_step_content", JsonValue.str cb.original_step_content)]) ∧
    (addSideChatMessage baseUrl token sideChatId mb outcome).1.body =
      some (JsonValue.obj
        [("role", JsonValue.str mb.role),
         ("content", JsonValue.str mb.content)]) := by
  have hpresent : ("authorization", "Bearer " ++ token) ∈ baseHeaders token := by
    simp [baseHeaders, htok]
  have habsent : (baseHeaders "").all (fun hdr => hdr.1 != "authorization") = true := by
    decide
  exact ⟨hpresent, hpresent, hpresent, hpresent, hpresent,
    habsent, habsent, habsent, habsent, habsent, rfl, rfl⟩

/-- Witness for `sideChat_api_headers_and_bodies` with token `"tok"`. -/
theorem sideChat_api_headers_and_bodies_check :
    ("authorization", "Bearer " ++ "tok") ∈
      (createSideChat "http://api" "tok"
        { chat_id := "c1", step_number := 4, original_step_content := "sc" }
        (.success .null)).1.headers ∧
    ("authorization", "Bearer " ++ "tok") ∈
      (getSideChatsByChatId "http://api" "tok" "c1" (.success .null)).1.headers ∧
    ("authorization", "Bearer " ++ "tok") ∈
      (addSideChatMessage "http://api" "tok" "sc-1"
        { role := "user", content := "hello" } (.success .null)).1.headers ∧
    ("authorization", "Bearer " ++ "tok") ∈
      (combineSideChat "http://api" "tok" "sc-1" (.success .null)).1.headers ∧
    ("authorization", "Bearer " ++ "tok") ∈
      (deleteSideChat "http://api" "tok" "sc-1" (.success .null)).1.headers ∧
    (createSideChat "http://api" ""
        { chat_id := "c1", step_number := 4, original_step_content := "sc" }
        (.success .null)).1.headers.all
      (fun hdr => hdr.1 != "authorization") = true ∧
    (getSideChatsByChatId "http://api" "" "c1" (.success .null)).1.headers.all
      (fun hdr => hdr.1 != "authorization") = true ∧
    (addSideChatMessage "http://api" "" "sc-1"
        { role := "user", content := "hello" } (.success .null)).1.headers.all
      (fun hdr => hdr.1 != "authorization") = true ∧
    (combineSideChat "http://api" "" "sc-1" (.success .null)).1.headers.all
      (fun hdr => hdr.1 != "authorization") = true ∧
    (deleteSideChat "http://api" "" "sc-1" (.success .null)).1.headers.all
      (fun hdr => hdr.1 != "authorization") = true ∧
    (createSideChat "http://api" "tok"
        { chat_id := "c1", step_number := 4, original_step_content := "sc" }
        (.success .null)).1.body =
      some (JsonValue.obj
        [("chat_id", JsonValue.str "c1"),
         ("step_number", JsonValue.num 4),
         ("original_step_content", JsonValue.str "sc")]) ∧
    (addSideChatMessage "http://api" "tok" "sc-1"
        { role := "user", content := "hello" } (.success .null)).1.body =
      some (JsonValue.obj
        [("role", JsonValue.str "user"),
         ("content", JsonValue.str "hello")]) :=
  sideChat_api_headers_and_bodies "http://api" "tok" "c1" "sc-1"
    { chat_id := "c1", step_number := 4, original_step_content := "sc" }
    { role := "user", content := "hello" } (.success .null) (by decide)

end SideChats
